import Mathlib

/-!
Verification development for the Stripe reconciliation service
(`src/modules/stripe/stripe.service.ts`, the monolithic `StripeService`).

The service's webhook-handling core is shallowly embedded here:
* JS numbers that carry money or epoch seconds are modelled as `ℚ`;
  a `Date` is modelled as its epoch-millisecond value (`ℚ`).
* Nullable / dynamically typed epoch fields are modelled by `TsVal`
  (null-or-undefined, NaN, or a finite number), so that the JS truthiness
  tests of the source are reproduced exactly.
* TypeORM repositories are modelled as lists of records inside a `DB`
  value; `findOne` is `List.find?`, `save` of a loaded entity replaces the
  first record with the same lookup key, `save` of a fresh entity appends,
  and `update`/`increment` with a criteria object rewrite every matching
  record.
* External Stripe API lookups (expanded balance transactions, payment-intent
  failure details) are suspension points on an external collaborator; their
  outcome is passed in as an oracle argument.
* Opaque blobs that no claim touches (`rawPayload`, transaction `metadata`
  maps) are omitted from the records.
-/

/-- A JS value sitting in a numeric epoch-second field: `null`/`undefined`,
`NaN`, or a finite number. -/
inductive TsVal where
  | tnull : TsVal
  | tnan : TsVal
  | tnum : ℚ → TsVal
deriving DecidableEq, Repr

/-- JS truthiness of a `TsVal`: `null`, `undefined`, `NaN` and `0` are falsy,
every other number is truthy. -/
def tsTruthy : TsVal → Bool
  | TsVal.tnull => false
  | TsVal.tnan => false
  | TsVal.tnum q => q != 0

/-- The `convertStripeTimestamp` (stripe.service.ts:82-91): returns `null` when
`!timestamp || typeof timestamp !== 'number' || isNaN(timestamp)`, otherwise
`new Date(timestamp * 1000)` (modelled as the epoch-millisecond value). -/
def convertStripeTimestamp : TsVal → Option ℚ
  | TsVal.tnull => none
  | TsVal.tnan => none
  | TsVal.tnum q => if q = 0 then none else some (q * 1000)

/-- JS `||` on an optional string: `none` and the empty string are falsy. -/
def jsOrStr : Option String → String → String
  | some s, d => if s = "" then d else s
  | none, d => d

/-- JS `||` chain on two optional strings (used for id fallbacks such as
`session.payment_intent as string || session.subscription as string`). -/
def jsOrOptStr : Option String → Option String → Option String
  | some s, d => if s = "" then d else some s
  | none, d => d

/-- JS truthiness of an optional string. -/
def optStrTruthy : Option String → Bool
  | some s => s != ""
  | none => false

/-- The `currency.toUpperCase()`: upper-case every character. -/
def strToUpper (s : String) : String := String.mk (s.data.map Char.toUpper)

/-- The `SubscriptionStatus` enum of the subscription entity. -/
inductive SubStatus where
  | trialing | active | past_due | canceled | unpaid | incomplete
deriving DecidableEq, Repr

/-- The `TransactionType` enum. -/
inductive TxType where
  | payment | subscription | refund
deriving DecidableEq, Repr

/-- The `TransactionStatus` enum. -/
inductive TxStatus where
  | completed | failed | cancelled | refunded
deriving DecidableEq, Repr

/-- The `WebhookProcessingStatus` enum. -/
inductive WStatus where
  | pending | completed | failed | retrying
deriving DecidableEq, Repr

/-- A row of the user repository; only the fields the service touches. -/
structure UserRec where
  id : String
  stripeCustomerId : Option String
deriving DecidableEq, Repr

/-- A row of the subscription repository (`UserSubscriptionEntity`). -/
structure SubRec where
  userId : String
  stripeSubscriptionId : String
  status : SubStatus
  planId : Option String
  planName : String
  amount : ℚ
  currency : String
  interval : String
  intervalCount : ℚ
  currentPeriodStart : Option ℚ
  currentPeriodEnd : Option ℚ
  trialStartDate : Option ℚ
  trialEndDate : Option ℚ
  failedPaymentCount : ℕ
  canceledAt : Option ℚ
  endedAt : Option ℚ
  metadata : List (String × String)
deriving DecidableEq, Repr

/-- A row of the transaction repository (`StripeTransactionEntity`).
`stripePaymentIntentId` is `Option String` because the TS callers cast
possibly-null fields (`invoice.payment_intent as string`) into it. -/
structure TxRec where
  userId : String
  stripePaymentIntentId : Option String
  transactionType : TxType
  amount : ℚ
  currency : String
  status : TxStatus
  description : Option String
  failureReason : Option String
  stripeFee : Option ℚ
  netAmount : Option ℚ
  processedAt : Option ℚ
deriving DecidableEq, Repr

/-- A row of the payment-method repository (`PaymentMethodEntity`). -/
structure PMRec where
  userId : String
  stripePaymentMethodId : String
  pmType : String
  last4 : Option String
  brand : Option String
  expMonth : Option ℚ
  expYear : Option ℚ
  isDefault : Bool
deriving DecidableEq, Repr

/-- A row of the webhook-event ledger (`WebhookEventEntity`); the opaque
`rawPayload` blob is omitted. -/
structure WRec where
  stripeEventId : String
  eventType : String
  processingStatus : WStatus
  retryCount : ℕ
  processedAt : Option ℚ
  errorMessage : Option String
deriving DecidableEq, Repr

/-- The durable store: one list per injected repository. -/
structure DB where
  users : List UserRec
  subs : List SubRec
  txs : List TxRec
  paymentMethods : List PMRec
  webhookEvents : List WRec
deriving DecidableEq, Repr

/-- The `userRepository.findOne({ where: { stripeCustomerId: customerId } })`. -/
def findUserByCustomer (db : DB) (customerId : String) : Option UserRec :=
  db.users.find? (fun u => u.stripeCustomerId = some customerId)

/-- The `subscriptionRepository.findOne({ where: { stripeSubscriptionId } })`. -/
def findSubById (subs : List SubRec) (sid : String) : Option SubRec :=
  subs.find? (fun s => s.stripeSubscriptionId = sid)

/-- The `subscriptionRepository.save(loadedEntity)`: the loaded entity is written
back in place; modelled as replacing the first record with the same
`stripeSubscriptionId` (the key it was loaded by). -/
def saveSubById : List SubRec → String → SubRec → List SubRec
  | [], _, _ => []
  | r :: rs, sid, newRec =>
    if r.stripeSubscriptionId = sid then newRec :: rs
    else r :: saveSubById rs sid newRec

/-- The `Stripe.Checkout.Session`, restricted to the fields the service reads.
Expanded object references are collapsed to their ids (the code does
`typeof x === 'string' ? x : x.id`). -/
structure CheckoutSession where
  id : String
  customer : Option String
  payment_intent : Option String
  subscription : Option String
  mode : String
  amount_total : Option ℚ
  currency : Option String
  customer_email : Option String
deriving DecidableEq, Repr

/-- The `Stripe.Invoice`, restricted to the fields the service reads. -/
structure Invoice where
  id : String
  customer : Option String
  subscription : Option String
  payment_intent : Option String
  amount_paid : Option ℚ
  amount_due : ℚ
  currency : String
  number : Option String
deriving DecidableEq, Repr

/-- The `Stripe.PaymentIntent`, restricted to the fields the service reads. -/
structure PaymentIntent where
  id : String
  customer : Option String
  invoice : Option String
  amount : ℚ
  currency : String
  description : Option String
deriving DecidableEq, Repr

/-- A refund inside `charge.refunds.data`. -/
structure RefundInfo where
  id : String
  amount : ℚ
deriving DecidableEq, Repr

/-- The `Stripe.Charge`, restricted to the fields read by `handleChargeRefunded`;
`firstRefund` is `charge.refunds?.data?.[0]`. -/
structure Charge where
  id : String
  customer : Option String
  payment_intent : Option String
  amount_refunded : ℚ
  currency : String
  firstRefund : Option RefundInfo
deriving DecidableEq, Repr

/-- Card details of a `Stripe.PaymentMethod`. -/
structure CardInfo where
  last4 : String
  brand : String
  exp_month : ℚ
  exp_year : ℚ
deriving DecidableEq, Repr

/-- The `Stripe.PaymentMethod`, restricted to the fields the service reads. -/
structure PaymentMethodObj where
  id : String
  customer : Option String
  pmType : String
  card : Option CardInfo
deriving DecidableEq, Repr

/-- The `price.recurring` of a subscription item. -/
structure RecurringInfo where
  interval : String
  interval_count : Option ℚ
deriving DecidableEq, Repr

/-- The `price.product`: either a product-id string or an (expanded or deleted)
product object. -/
inductive ProductField where
  | byId : String → ProductField
  | byObj : Option String → String → ProductField
deriving DecidableEq, Repr

/-- The `price` of a subscription item. -/
structure PriceInfo where
  id : String
  unit_amount : Option ℚ
  currency : Option String
  nickname : Option String
  product : Option ProductField
  recurring : Option RecurringInfo
deriving DecidableEq, Repr

/-- The `subscription.items.data[0]`; the period fields are read through an
`as any` cast in the source, hence `TsVal`. -/
structure SubItem where
  price : PriceInfo
  current_period_start : TsVal
  current_period_end : TsVal
deriving DecidableEq, Repr

/-- The `Stripe.Subscription`, restricted to the fields the service reads.
`item` is `items.data[0]` (`none` when the items array is empty). -/
structure SubscriptionEvent where
  id : String
  customer : String
  status : String
  item : Option SubItem
  billing_cycle_anchor : TsVal
  created : TsVal
  trial_start : TsVal
  trial_end : TsVal
  canceled_at : TsVal
  ended_at : TsVal
  metadata : List (String × String)
deriving DecidableEq, Repr

/-- The transaction record built by `recordTransaction`
(stripe.service.ts:467-514): the currency is upper-cased; the amount is
stored exactly as passed (this function never divides by 100). -/
def mkTransaction (userId : String) (stripePaymentIntentId : Option String)
    (ty : TxType) (amount : ℚ) (currency : String) (status : TxStatus)
    (description : Option String) (failureReason : Option String)
    (stripeFee : Option ℚ) (netAmount : Option ℚ) (processedAt : Option ℚ) :
    TxRec :=
  { userId := userId
    stripePaymentIntentId := stripePaymentIntentId
    transactionType := ty
    amount := amount
    currency := strToUpper currency
    status := status
    description := description
    failureReason := failureReason
    stripeFee := stripeFee
    netAmount := netAmount
    processedAt := processedAt }

/-- The `recordTransaction`: creates the entity and saves it (insert). -/
def recordTransaction (db : DB) (userId : String)
    (stripePaymentIntentId : Option String) (ty : TxType) (amount : ℚ)
    (currency : String) (status : TxStatus) (description : Option String)
    (failureReason : Option String) (stripeFee : Option ℚ)
    (netAmount : Option ℚ) (processedAt : Option ℚ) : DB :=
  { db with
    txs := db.txs ++ [mkTransaction userId stripePaymentIntentId ty amount
      currency status description failureReason stripeFee netAmount
      processedAt] }

/-- The `handleCheckoutSessionCompleted` (stripe.service.ts:670-708): if the
session's customer correlates to a local user, record a COMPLETED
transaction.  The amount passed is `session.amount_total || 0`, taken
directly from the event (minor units), and the currency is
`session.currency || 'usd'`. -/
def handleCheckoutSessionCompleted (db : DB) (session : CheckoutSession) :
    DB :=
  match session.customer with
  | none => db
  | some customerId =>
    match findUserByCustomer db customerId with
    | none => db
    | some user =>
      recordTransaction db user.id
        (jsOrOptStr session.payment_intent
          (jsOrOptStr session.subscription (some session.id)))
        (if session.mode = "subscription" then TxType.subscription
         else TxType.payment)
        (session.amount_total.getD 0)
        (jsOrStr (session.currency) "usd")
        TxStatus.completed
        (some ("Checkout session completed - " ++ session.mode))
        none none none none

/-- The outcome of retrieving a payment intent with
`expand: ['latest_charge']` against the external processor:
`none` — the call threw (caught, defaults kept);
`some none` — it succeeded but the charge / balance transaction was not an
expanded object; `some (some bt)` — the settlement object with `fee` and
`net` (minor units). -/
structure BalanceTx where
  fee : ℚ
  net : ℚ
deriving DecidableEq, Repr

/-- The `handleInvoicePaymentSucceeded` (stripe.service.ts:713-779): fee defaults
to `0` and net to `(invoice.amount_paid || 0) / 100`; both are overwritten
from the expanded balance transaction when the lookup chain succeeds (which
is attempted only when `invoice.payment_intent` is a string). -/
def handleInvoicePaymentSucceeded (db : DB) (invoice : Invoice)
    (settlement : Option (Option BalanceTx)) (now : ℚ) : DB :=
  match invoice.customer with
  | none => db
  | some customerId =>
    match findUserByCustomer db customerId with
    | none => db
    | some user =>
      let gross : ℚ := (invoice.amount_paid.getD 0) / 100
      let feeNet : ℚ × ℚ :=
        match invoice.payment_intent with
        | some _ =>
          match settlement with
          | some (some bt) => (bt.fee / 100, bt.net / 100)
          | _ => (0, gross)
        | none => (0, gross)
      recordTransaction db user.id
        (jsOrOptStr invoice.payment_intent (some invoice.id))
        TxType.subscription
        gross
        (jsOrStr (some invoice.currency) "usd")
        TxStatus.completed
        (some ("Invoice payment succeeded - " ++ (invoice.number).getD ("")))
        none
        (some feeNet.1) (some feeNet.2) (some now)

/-- The `handlePaymentMethodAttached` (stripe.service.ts:784-815). -/
def handlePaymentMethodAttached (db : DB) (pm : PaymentMethodObj) : DB :=
  match pm.customer with
  | none => db
  | some customerId =>
    match findUserByCustomer db customerId with
    | none => db
    | some user =>
      match pm.card with
      | none => db
      | some card =>
        { db with
          paymentMethods := db.paymentMethods ++
            [{ userId := user.id
               stripePaymentMethodId := pm.id
               pmType := pm.pmType
               last4 := some card.last4
               brand := some card.brand
               expMonth := some card.exp_month
               expYear := some card.exp_year
               isDefault := false }] }

/-- The `handlePaymentIntentSucceeded` (stripe.service.ts:820-902): when the
payment intent carries an invoice it is treated as a subscription payment
and no transaction is recorded (left to `invoice.payment_succeeded`);
otherwise fee/net default to `0` / `amount / 100` and are overwritten from
the expanded balance transaction when available. -/
def handlePaymentIntentSucceeded (db : DB) (pi : PaymentIntent)
    (settlement : Option (Option BalanceTx)) (now : ℚ) : DB :=
  match pi.customer with
  | none => db
  | some customerId =>
    match findUserByCustomer db customerId with
    | none => db
    | some user =>
      if optStrTruthy pi.invoice then db
      else
        let gross : ℚ := pi.amount / 100
        let feeNet : ℚ × ℚ :=
          match settlement with
          | some (some bt) => (bt.fee / 100, bt.net / 100)
          | _ => (0, gross)
        recordTransaction db user.id (some pi.id) TxType.payment gross
          pi.currency TxStatus.completed
          (some (jsOrStr (pi.description) "Payment completed"))
          none (some feeNet.1) (some feeNet.2) (some now)

/-- The `handlePaymentIntentFailed` (stripe.service.ts:907-955). -/
def handlePaymentIntentFailed (db : DB) (pi : PaymentIntent) : DB :=
  match pi.customer with
  | none => db
  | some customerId =>
    match findUserByCustomer db customerId with
    | none => db
    | some user =>
      recordTransaction db user.id (some pi.id) TxType.payment
        (pi.amount / 100) pi.currency TxStatus.failed
        (some (jsOrStr (pi.description) "Payment failed"))
        none none none none

/-- The `handlePaymentIntentCanceled` (stripe.service.ts:960-1007). -/
def handlePaymentIntentCanceled (db : DB) (pi : PaymentIntent) : DB :=
  match pi.customer with
  | none => db
  | some customerId =>
    match findUserByCustomer db customerId with
    | none => db
    | some user =>
      recordTransaction db user.id (some pi.id) TxType.payment
        (pi.amount / 100) pi.currency TxStatus.cancelled
        (some (jsOrStr (pi.description) "Payment canceled"))
        none none none none

/-- The `handleChargeRefunded` (stripe.service.ts:1012-1065): the refund amount
is the most recent refund's amount (or `charge.amount_refunded`) divided by
100. -/
def handleChargeRefunded (db : DB) (charge : Charge) : DB :=
  match charge.customer with
  | none => db
  | some customerId =>
    match findUserByCustomer db customerId with
    | none => db
    | some user =>
      let refundAmount : ℚ :=
        match charge.firstRefund with
        | some r => r.amount / 100
        | none => charge.amount_refunded / 100
      recordTransaction db user.id
        (jsOrOptStr charge.payment_intent (some charge.id))
        TxType.refund refundAmount charge.currency TxStatus.refunded
        (some ("Refund for charge " ++ charge.id))
        none none none none

/-- The `handleInvoicePaymentFailed` (stripe.service.ts:1070-1162).  The
payment-intent retrieval for the failure reason is an external lookup;
`failureDetail` is the resolved `last_payment_error` message when the
retrieve succeeded and an error was present (`none` otherwise, in which
case the default reason is kept). -/
def handleInvoicePaymentFailed (db : DB) (invoice : Invoice)
    (failureDetail : Option String) : DB :=
  match invoice.customer with
  | none => db
  | some customerId =>
    match findUserByCustomer db customerId with
    | none => db
    | some user =>
      let db1 : DB :=
        match invoice.subscription with
        | none => db
        | some sid =>
          match findSubById db.subs sid with
          | none => db
          | some sub =>
            let newCount := sub.failedPaymentCount + 1
            { db with
              subs := saveSubById db.subs sid
                { sub with
                  failedPaymentCount := newCount
                  status :=
                    if newCount = 1 then SubStatus.past_due else sub.status } }
      let failureReason : String :=
        match invoice.payment_intent with
        | some _ => (failureDetail).getD ("Unknown failure reason")
        | none => "Unknown failure reason"
      recordTransaction db1 user.id invoice.payment_intent
        TxType.subscription (invoice.amount_due / 100) invoice.currency
        TxStatus.failed
        (some ("Subscription payment failed: " ++ invoice.id))
        (some failureReason) none none none

/-- The `mapStripeSubscriptionStatus` (stripe.service.ts:1534-1551): total
mapping with a default of ACTIVE for unrecognized status strings. -/
def mapStripeSubscriptionStatus (status : String) : SubStatus :=
  if status = "trialing" then SubStatus.trialing
  else if status = "active" then SubStatus.active
  else if status = "past_due" then SubStatus.past_due
  else if status = "canceled" then SubStatus.canceled
  else if status = "unpaid" then SubStatus.unpaid
  else if status = "incomplete" then SubStatus.incomplete
  else SubStatus.active

/-- The item-level `current_period_start` as the handlers see it:
`subscription.items?.data?.[0]` must exist and the field is read through an
`as any` cast (`tnull` stands for a missing item as well, since
`subscriptionItem && item.current_period_start` is then falsy). -/
def itemPeriodStart (s : SubscriptionEvent) : TsVal :=
  match s.item with
  | some it => it.current_period_start
  | none => TsVal.tnull

/-- The item-level `current_period_end`, same convention. -/
def itemPeriodEnd (s : SubscriptionEvent) : TsVal :=
  match s.item with
  | some it => it.current_period_end
  | none => TsVal.tnull

/-- The period-start fallback chain, written identically in
`handleSubscriptionCreated` (stripe.service.ts:1277-1289) and
`handleSubscriptionUpdated` (stripe.service.ts:1388-1400):
item-level `current_period_start` if truthy, else `billing_cycle_anchor`
if truthy, else `subscription.created`, each run through
`convertStripeTimestamp`. -/
def resolvePeriodStart (s : SubscriptionEvent) : Option ℚ :=
  if tsTruthy (itemPeriodStart s) then
    convertStripeTimestamp (itemPeriodStart s)
  else if tsTruthy s.billing_cycle_anchor then
    convertStripeTimestamp s.billing_cycle_anchor
  else
    convertStripeTimestamp s.created

/-- The period-end resolution of both handlers: only the item-level
`current_period_end` is consulted; anything else leaves it unset. -/
def resolvePeriodEnd (s : SubscriptionEvent) : Option ℚ :=
  if tsTruthy (itemPeriodEnd s) then
    convertStripeTimestamp (itemPeriodEnd s)
  else
    none

/-- The plan-name extraction of `handleSubscriptionCreated`
(stripe.service.ts:1246-1267): `price.nickname`, else the product id or the
product object's `name || id || 'Unknown Plan'`, with a final
`planName || 'Unknown Plan'`. -/
def extractPlanName (price : Option PriceInfo) : String :=
  let base : String :=
    match price with
    | none => ""
    | some p =>
      match p.nickname with
      | some n =>
        if n = "" then
          match p.product with
          | some (ProductField.byId s) => s
          | some (ProductField.byObj name pid) =>
            jsOrStr name (jsOrStr (some pid) "Unknown Plan")
          | none => ""
        else n
      | none =>
        match p.product with
        | some (ProductField.byId s) => s
        | some (ProductField.byObj name pid) =>
          jsOrStr name (jsOrStr (some pid) "Unknown Plan")
        | none => ""
  if base = "" then ("Unknown Plan") else base

/-- The fresh subscription record built by `handleSubscriptionCreated`
(stripe.service.ts:1261-1321) for a correlated user. -/
def newSubRecord (user : UserRec) (s : SubscriptionEvent) : SubRec :=
  let price : Option PriceInfo := s.item.map (fun it => it.price)
  let trialStart := convertStripeTimestamp s.trial_start
  let trialEnd := convertStripeTimestamp s.trial_end
  { userId := user.id
    stripeSubscriptionId := s.id
    status := mapStripeSubscriptionStatus s.status
    planId := price.map (fun p => p.id)
    planName := extractPlanName price
    amount :=
      match price with
      | some p =>
        match p.unit_amount with
        | some q => if q = 0 then 0 else q / 100
        | none => 0
      | none => 0
    currency :=
      jsOrStr (price.bind (fun p => p.currency)) "usd"
    interval :=
      jsOrStr ((price.bind (fun p => p.recurring)).map
        (fun r => r.interval)) "month"
    intervalCount :=
      match (price.bind (fun p => p.recurring)).bind
        (fun r => r.interval_count) with
      | some q => if q = 0 then 1 else q
      | none => 1
    currentPeriodStart := resolvePeriodStart s
    currentPeriodEnd := resolvePeriodEnd s
    trialStartDate :=
      match trialStart, trialEnd with
      | some ts, some _ => some ts
      | _, _ => none
    trialEndDate :=
      match trialStart, trialEnd with
      | some _, some te => some te
      | _, _ => none
    failedPaymentCount := 0
    canceledAt := none
    endedAt := none
    metadata := s.metadata }

/-- The `handleSubscriptionCreated` (stripe.service.ts:1204-1358): when the
customer correlates to a local user, a new record is always created and
inserted (multiple subscriptions per user are allowed). -/
def handleSubscriptionCreated (db : DB) (s : SubscriptionEvent) : DB :=
  match findUserByCustomer db s.customer with
  | none => db
  | some user => { db with subs := db.subs ++ [newSubRecord user s] }

/-- The in-place mutation performed by `handleSubscriptionUpdated`
(stripe.service.ts:1371-1437) on the loaded record: the status is
overwritten with the mapped event status; period dates, `canceledAt` and
`endedAt` are overwritten only when their resolution is non-null; the
failed-payment counter is reset to zero exactly when the new status is
ACTIVE and the previous one was PAST_DUE; metadata is overwritten. -/
def updatedSubRecord (old : SubRec) (s : SubscriptionEvent) : SubRec :=
  let previousStatus := old.status
  let newStatus := mapStripeSubscriptionStatus s.status
  { old with
    status := newStatus
    currentPeriodStart :=
      match resolvePeriodStart s with
      | some v => some v
      | none => old.currentPeriodStart
    currentPeriodEnd :=
      match resolvePeriodEnd s with
      | some v => some v
      | none => old.currentPeriodEnd
    canceledAt :=
      match convertStripeTimestamp s.canceled_at with
      | some v => some v
      | none => old.canceledAt
    endedAt :=
      match convertStripeTimestamp s.ended_at with
      | some v => some v
      | none => old.endedAt
    failedPaymentCount :=
      if newStatus = SubStatus.active ∧ previousStatus = SubStatus.past_due
      then 0 else old.failedPaymentCount
    metadata := s.metadata }

/-- The `handleSubscriptionUpdated` (stripe.service.ts:1363-1454): locate by
`stripeSubscriptionId`; when missing, log and no-op. -/
def handleSubscriptionUpdated (db : DB) (s : SubscriptionEvent) : DB :=
  match findSubById db.subs s.id with
  | none => db
  | some old =>
    { db with subs := saveSubById db.subs s.id (updatedSubRecord old s) }

/-- The `handleSubscriptionDeleted` (stripe.service.ts:1459-1487): force status
to CANCELED and set both `canceledAt` and `endedAt` to the processing time
(`new Date()`). -/
def handleSubscriptionDeleted (db : DB) (s : SubscriptionEvent) (now : ℚ) :
    DB :=
  match findSubById db.subs s.id with
  | none => db
  | some old =>
    { db with
      subs := saveSubById db.subs s.id
        { old with
          status := SubStatus.canceled
          canceledAt := some now
          endedAt := some now } }

/-- Events the webhook dispatcher switches on (`handleWebhookEvent`,
stripe.service.ts:1569-1640); `unhandled` carries the raw type tag of any
other event type. -/
inductive EventData where
  | checkoutSessionCompleted : CheckoutSession → EventData
  | invoicePaymentSucceeded : Invoice → EventData
  | invoicePaymentFailed : Invoice → EventData
  | invoiceUpcoming : Invoice → EventData
  | paymentMethodAttached : PaymentMethodObj → EventData
  | subscriptionCreated : SubscriptionEvent → EventData
  | subscriptionUpdated : SubscriptionEvent → EventData
  | subscriptionDeleted : SubscriptionEvent → EventData
  | subscriptionTrialWillEnd : SubscriptionEvent → EventData
  | paymentIntentSucceeded : PaymentIntent → EventData
  | paymentIntentCreated : PaymentIntent → EventData
  | paymentIntentFailed : PaymentIntent → EventData
  | paymentIntentCanceled : PaymentIntent → EventData
  | chargeRefunded : Charge → EventData
  | unhandled : String → EventData
deriving DecidableEq, Repr

/-- The Stripe `event.type` tag of each event. -/
def eventTypeName : EventData → String
  | EventData.checkoutSessionCompleted _ => "checkout.session.completed"
  | EventData.invoicePaymentSucceeded _ => "invoice.payment_succeeded"
  | EventData.invoicePaymentFailed _ => "invoice.payment_failed"
  | EventData.invoiceUpcoming _ => "invoice.upcoming"
  | EventData.paymentMethodAttached _ => "payment_method.attached"
  | EventData.subscriptionCreated _ => "customer.subscription.created"
  | EventData.subscriptionUpdated _ => "customer.subscription.updated"
  | EventData.subscriptionDeleted _ => "customer.subscription.deleted"
  | EventData.subscriptionTrialWillEnd _ =>
    "customer.subscription.trial_will_end"
  | EventData.paymentIntentSucceeded _ => "payment_intent.succeeded"
  | EventData.paymentIntentCreated _ => "payment_intent.created"
  | EventData.paymentIntentFailed _ => "payment_intent.payment_failed"
  | EventData.paymentIntentCanceled _ => "payment_intent.canceled"
  | EventData.chargeRefunded _ => "charge.refunded"
  | EventData.unhandled t => t

/-- A verified event as produced by `constructEvent` (the signature
verification itself is an out-of-scope SDK primitive). -/
structure WebhookEvent where
  id : String
  data : EventData
deriving DecidableEq, Repr

/-- Configuration visible to the ledger:
`STRIPE_WEBHOOK_LOGGING_ENABLED === 'true'`. -/
structure WConfig where
  loggingEnabled : Bool
deriving DecidableEq, Repr

/-- Modelled from the spec: the `WebhookEventEntity` definition is not
under `src/`; the spec's data model states `externalEventId` is unique with
at most one record per id, so the unconditional insert performed by
`logWebhookEvent` fails on a duplicate id.  This is the error message of
that duplicate-key failure raised by the store. -/
def duplicateEventMessage : String := "duplicate webhook event stripeEventId"

/-- The `logWebhookEvent` (stripe.service.ts:549-586): skipped entirely
(returning `null`) when logging is disabled; otherwise creates a PENDING
row with `retryCount = 0` and saves it.  A failed save is logged and
re-thrown. -/
def logWebhookEvent (cfg : WConfig) (db : DB) (stripeEventId : String)
    (eventType : String) : Except String (Option WRec × DB) :=
  if cfg.loggingEnabled = false then Except.ok (none, db)
  else if db.webhookEvents.any
      (fun r => r.stripeEventId = stripeEventId) then
    Except.error duplicateEventMessage
  else
    let row : WRec :=
      { stripeEventId := stripeEventId
        eventType := eventType
        processingStatus := WStatus.pending
        retryCount := 0
        processedAt := none
        errorMessage := none }
    Except.ok (some row, { db with webhookEvents := db.webhookEvents ++ [row] })

/-- The column rewrite of `updateWebhookEventStatus` on one matching row:
`processingStatus` is always set, `errorMessage` only when given (TypeORM
skips `undefined` columns), and `processedAt` is stamped on COMPLETED. -/
def applyWStatus (now : ℚ) (status : WStatus) (errMsg : Option String)
    (r : WRec) : WRec :=
  let r1 := { r with processingStatus := status }
  let r2 :=
    match errMsg with
    | some m => { r1 with errorMessage := some m }
    | none => r1
  if status = WStatus.completed then { r2 with processedAt := some now }
  else r2

/-- The `updateWebhookEventStatus` (stripe.service.ts:591-634): no-op when
logging is disabled; on FAILED or RETRYING the `retryCount` of every row
with this `stripeEventId` is incremented first, then the status columns are
rewritten on every such row. -/
def updateWebhookEventStatus (cfg : WConfig) (db : DB) (eventId : String)
    (status : WStatus) (errMsg : Option String) (now : ℚ) : DB :=
  if cfg.loggingEnabled = false then db
  else
    let evs :=
      if status = WStatus.failed ∨ status = WStatus.retrying then
        db.webhookEvents.map
          (fun r =>
            if r.stripeEventId = eventId then
              { r with retryCount := r.retryCount + 1 }
            else r)
      else db.webhookEvents
    { db with
      webhookEvents := evs.map
        (fun r =>
          if r.stripeEventId = eventId then applyWStatus now status errMsg r
          else r) }

/-- Outcomes of the external-processor lookups a handler may perform, plus
a transient-dependency fault: `handlerFault = some msg` means the selected
handler's durable-store or external call threw with message `msg` (handlers
re-throw such errors to the dispatcher). -/
structure Oracle where
  settlement : Option (Option BalanceTx)
  failureDetail : Option String
  handlerFault : Option String
deriving DecidableEq, Repr

/-- The `switch (event.type)` dispatch of `handleWebhookEvent`
(stripe.service.ts:1569-1640).  `invoice.upcoming`,
`customer.subscription.trial_will_end`, `payment_intent.created` and
unhandled types only log. -/
def dispatchEvent (o : Oracle) (db : DB) (e : EventData) (now : ℚ) : DB :=
  match e with
  | EventData.checkoutSessionCompleted s =>
    handleCheckoutSessionCompleted db s
  | EventData.invoicePaymentSucceeded i =>
    handleInvoicePaymentSucceeded db i o.settlement now
  | EventData.invoicePaymentFailed i =>
    handleInvoicePaymentFailed db i o.failureDetail
  | EventData.invoiceUpcoming _ => db
  | EventData.paymentMethodAttached pm => handlePaymentMethodAttached db pm
  | EventData.subscriptionCreated s => handleSubscriptionCreated db s
  | EventData.subscriptionUpdated s => handleSubscriptionUpdated db s
  | EventData.subscriptionDeleted s => handleSubscriptionDeleted db s now
  | EventData.subscriptionTrialWillEnd _ => db
  | EventData.paymentIntentSucceeded p =>
    handlePaymentIntentSucceeded db p o.settlement now
  | EventData.paymentIntentCreated _ => db
  | EventData.paymentIntentFailed p => handlePaymentIntentFailed db p
  | EventData.paymentIntentCanceled p => handlePaymentIntentCanceled db p
  | EventData.chargeRefunded c => handleChargeRefunded db c
  | EventData.unhandled _ => db

/-- Does `pat` occur at the head of `text`? -/
def charsStartWith : List Char → List Char → Bool
  | [], _ => true
  | _ :: _, [] => false
  | p :: ps, t :: ts => p = t && charsStartWith ps ts

/-- Does `pat` occur anywhere inside `text`?  (JS `String.includes`.) -/
def charsContain (pat : List Char) : List Char → Bool
  | [] => charsStartWith pat []
  | t :: ts => charsStartWith pat (t :: ts) || charsContain pat ts

/-- A `\w` character of the JS regex engine. -/
def isWordChar (c : Char) : Bool := c.isAlphanum || c = '_'

/-- A `\s` character (the whitespace the service's messages can contain). -/
def isSpaceChar (c : Char) : Bool :=
  c = ' ' || c = '\t' || c = '\n' || c = '\r'

/-- Attempt of the regex `/event\.id:\s*(\w+)/` at one position: after the
literal `event.id:`, skip whitespace and capture a non-empty `\w+` run. -/
def matchIdAt (rest : List Char) : Option String :=
  let afterSpace := rest.dropWhile isSpaceChar
  let word := afterSpace.takeWhile isWordChar
  if word.isEmpty then none else some (String.mk word)

/-- The first match of `/event\.id:\s*(\w+)/`, scanning left to right
(JS `message.match(...)?.[1]`). -/
def findEventIdInMsg : List Char → Option String
  | [] => none
  | c :: cs =>
    if charsStartWith ("event.id:".toList) (c :: cs) then
      match matchIdAt ((c :: cs).drop 9) with
      | some w => some w
      | none => findEventIdInMsg cs
    else findEventIdInMsg cs

/-- The catch block of `handleWebhookEvent` (stripe.service.ts:1648-1672):
when logging is enabled and the error message contains `event.id`, an event
id is parsed out of the message and that row is marked FAILED with the
message; the error is then re-thrown.  (The verified `event` const is out
of scope inside the catch, which is why the id is recovered from the
message text.) -/
def webhookCatch (cfg : WConfig) (db : DB) (msg : String) (now : ℚ) :
    DB × Option String :=
  let db1 :=
    if cfg.loggingEnabled &&
        charsContain ("event.id".toList) msg.toList then
      match findEventIdInMsg msg.toList with
      | some eid =>
        updateWebhookEventStatus cfg db eid WStatus.failed (some msg) now
      | none => db
    else db
  (db1, some msg)

/-- The `handleWebhookEvent` (stripe.service.ts:1556-1674) on an
already-verified event: log the event (PENDING insert, skipped when
disabled), re-mark PENDING when a row was logged, dispatch to the handler
(or raise the injected transient fault), then mark COMPLETED.  The result
pairs the final store with `none` on success or the propagated error
message. -/
def handleWebhookEvent (cfg : WConfig) (o : Oracle) (db : DB)
    (evt : WebhookEvent) (now : ℚ) : DB × Option String :=
  match logWebhookEvent cfg db evt.id (eventTypeName evt.data) with
  | Except.error msg => webhookCatch cfg db msg now
  | Except.ok (logged, db1) =>
    let db2 :=
      if logged.isSome then
        updateWebhookEventStatus cfg db1 evt.id WStatus.pending none now
      else db1
    match o.handlerFault with
    | some msg => webhookCatch cfg db2 msg now
    | none =>
      let db3 := dispatchEvent o db2 evt.data now
      let db4 :=
        if logged.isSome then
          updateWebhookEventStatus cfg db3 evt.id WStatus.completed none now
        else db3
      (db4, none)

/-- The fresh PENDING row inserted by `logWebhookEvent` for an event. -/
def freshLedgerRow (evt : WebhookEvent) : WRec :=
  { stripeEventId := evt.id
    eventType := eventTypeName evt.data
    processingStatus := WStatus.pending
    retryCount := 0
    processedAt := none
    errorMessage := none }

/-- All ledger rows carrying a given `stripeEventId`. -/
def ledgerRows (db : DB) (eid : String) : List WRec :=
  db.webhookEvents.filter (fun r => r.stripeEventId = eid)

/-- Configuration with the webhook ledger enabled
(`STRIPE_WEBHOOK_LOGGING_ENABLED = 'true'`). -/
def wcfgOn : WConfig := { loggingEnabled := true }

/-- Oracle for a run whose external lookups all miss and whose handler does
not fault. -/
def oracleQuiet : Oracle :=
  { settlement := none, failureDetail := none, handlerFault := none }

/-- Oracle injecting a transient dependency failure with message `boom`
into the selected handler. -/
def oracleBoom : Oracle :=
  { settlement := none, failureDetail := none, handlerFault := some "boom" }

/-- A local user linked to Stripe customer `cus_1`. -/
def exUser : UserRec := { id := "u1", stripeCustomerId := some "cus_1" }

/-- A stored subscription `sub_1` of that user, ACTIVE with no failures. -/
def exSub : SubRec :=
  { userId := "u1"
    stripeSubscriptionId := "sub_1"
    status := SubStatus.active
    planId := some "price_1"
    planName := "Basic"
    amount := 99
    currency := "usd"
    interval := "month"
    intervalCount := 1
    currentPeriodStart := none
    currentPeriodEnd := none
    trialStartDate := none
    trialEndDate := none
    failedPaymentCount := 0
    canceledAt := none
    endedAt := none
    metadata := [] }

/-- A store holding that user and subscription, with an empty ledger. -/
def dbFresh : DB :=
  { users := [exUser]
    subs := [exSub]
    txs := []
    paymentMethods := []
    webhookEvents := [] }

/-- A bare subscription event: no items array entry, no billing anchor, a
plain `created` timestamp, customer `cus_1`. -/
def subEvt (sid : String) (status : String) : SubscriptionEvent :=
  { id := sid
    customer := "cus_1"
    status := status
    item := none
    billing_cycle_anchor := TsVal.tnull
    created := TsVal.tnum 1700000000
    trial_start := TsVal.tnull
    trial_end := TsVal.tnull
    canceled_at := TsVal.tnull
    ended_at := TsVal.tnull
    metadata := [] }

/-- A COMPLETED ledger row for event `evt_1`. -/
def wrowCompleted : WRec :=
  { stripeEventId := "evt_1"
    eventType := "customer.subscription.deleted"
    processingStatus := WStatus.completed
    retryCount := 0
    processedAt := some 5
    errorMessage := none }

/-- The store after `evt_1` was fully processed: its ledger row is
COMPLETED. -/
def dbDup : DB := { dbFresh with webhookEvents := [wrowCompleted] }

/-- A redelivery of `evt_1` (a deletion event for the stored `sub_1`). -/
def evtDup : WebhookEvent :=
  { id := "evt_1", data := EventData.subscriptionDeleted (subEvt "sub_1" "canceled") }

/-- An invoice with no customer (inert for every handler). -/
def invNoCust : Invoice :=
  { id := "in_0"
    customer := none
    subscription := none
    payment_intent := none
    amount_paid := none
    amount_due := 0
    currency := "usd"
    number := none }

/-- A first delivery of a fresh event `evt_7`. -/
def evtBoom : WebhookEvent :=
  { id := "evt_7", data := EventData.invoicePaymentFailed invNoCust }

/-- A completed checkout session paying 5000 minor units. -/
def sessEx : CheckoutSession :=
  { id := "cs_1"
    customer := some "cus_1"
    payment_intent := some "pi_9"
    subscription := none
    mode := "payment"
    amount_total := some 5000
    currency := some "usd"
    customer_email := none }

/-- The spec's end-to-end example: invoice-payment-failed with
`amount_due = 5000`, currency `usd`, first failure for `sub_1`. -/
def invFail5000 : Invoice :=
  { id := "in_1"
    customer := some "cus_1"
    subscription := some "sub_1"
    payment_intent := some "pi_1"
    amount_paid := none
    amount_due := 5000
    currency := "usd"
    number := none }

/-- A failed invoice referencing the stored `sub_1` but a customer with no
local user. -/
def invOrphan : Invoice :=
  { id := "in_2"
    customer := some "cus_x"
    subscription := some "sub_1"
    payment_intent := some "pi_2"
    amount_paid := none
    amount_due := 1000
    currency := "usd"
    number := none }

/-- A store with the subscription but no users at all. -/
def dbNoUser : DB := { dbFresh with users := [] }

/-- The `sub_1` in PAST_DUE after two failed payments. -/
def subPD : SubRec :=
  { exSub with status := SubStatus.past_due, failedPaymentCount := 2 }

/-- A store holding the PAST_DUE subscription. -/
def dbPD : DB := { dbFresh with subs := [subPD] }

/-- A paid invoice (2000 minor units) with a payment-intent reference. -/
def invPaid : Invoice :=
  { id := "in_3"
    customer := some "cus_1"
    subscription := some "sub_1"
    payment_intent := some "pi_3"
    amount_paid := some 2000
    amount_due := 2000
    currency := "usd"
    number := some "INV-1" }

/-- A payment intent carrying an invoice reference (subscription charge). -/
def payIntInv : PaymentIntent :=
  { id := "pi_5"
    customer := some "cus_1"
    invoice := some "in_9"
    amount := 2500
    currency := "usd"
    description := none }

/-- A stand-alone payment intent (no invoice). -/
def payIntPlain : PaymentIntent :=
  { id := "pi_6"
    customer := some "cus_1"
    invoice := none
    amount := 3000
    currency := "usd"
    description := none }

/-- A settlement object: 59 minor units of fee, 1941 net. -/
def exSettlement : BalanceTx := { fee := 59, net := 1941 }

/-- A price carried by a subscription item. -/
def priceEx : PriceInfo :=
  { id := "price_1"
    unit_amount := some 9900
    currency := some "usd"
    nickname := none
    product := none
    recurring := none }

/-- A subscription event whose item carries `current_period_start = 100`. -/
def sItemEvt : SubscriptionEvent :=
  { subEvt "sub_4" "active" with
    item := some
      { price := priceEx
        current_period_start := TsVal.tnum 100
        current_period_end := TsVal.tnull } }

/-- A subscription event with no item-level period but a billing-cycle
anchor of 200. -/
def sAnchorEvt : SubscriptionEvent :=
  { subEvt "sub_5" "active" with billing_cycle_anchor := TsVal.tnum 200 }

/-- A subscription event where only the creation timestamp is present. -/
def sCreatedEvt : SubscriptionEvent := subEvt "sub_6" "active"

/-- A subscription event where no period candidate qualifies at all. -/
def sNoneEvt : SubscriptionEvent :=
  { subEvt "sub_7" "active" with created := TsVal.tnull }

/-- Oracle injecting a handler fault whose message embeds the event id in
the one shape the dispatcher's catch block can recover. -/
def oracleBoomTagged : Oracle :=
  { settlement := none
    failureDetail := none
    handlerFault := some "fail event.id: evt_7" }

/-! ### Helper lemmas -/

/-- JS truthiness of an epoch field coincides with convertibility: a field
passes the `if` guards of the handlers exactly when `convertStripeTimestamp`
succeeds on it. -/
theorem tsTruthy_eq_isSome (t : TsVal) :
    tsTruthy t = (convertStripeTimestamp t).isSome := by
  cases t with
  | tnull => rfl
  | tnan => rfl
  | tnum q =>
    by_cases h : q = 0 <;> simp [tsTruthy, convertStripeTimestamp, h]

/-- The converter never returns the epoch-zero date. -/
theorem convertStripeTimestamp_ne_zero (t : TsVal) :
    convertStripeTimestamp t ≠ some 0 := by
  cases t with
  | tnull => simp [convertStripeTimestamp]
  | tnan => simp [convertStripeTimestamp]
  | tnum q =>
    by_cases h : q = 0
    · simp [convertStripeTimestamp, h]
    · simp only [convertStripeTimestamp, if_neg h, ne_eq, Option.some.injEq]
      intro hc
      rcases mul_eq_zero.mp hc with h0 | h0
      · exact h h0
      · norm_num at h0

/-- Looking up the saved record after an in-place save returns the new
record, provided some record with that key was found before. -/
theorem findSubById_saveSubById (l : List SubRec) (sid : String)
    (newRec : SubRec) (old : SubRec)
    (hid : newRec.stripeSubscriptionId = sid)
    (h : findSubById l sid = some old) :
    findSubById (saveSubById l sid newRec) sid = some newRec := by
  induction l with
  | nil => simp [findSubById] at h
  | cons r rs ih =>
    by_cases hr : r.stripeSubscriptionId = sid
    · simp [saveSubById, hr, findSubById, List.find?, hid]
    · have h' : findSubById rs sid = some old := by
        simpa [findSubById, List.find?, hr] using h
      simpa [saveSubById, hr, findSubById, List.find?] using ih h'

/-- Rows that do not carry the targeted event id are untouched by a
criteria-keyed rewrite. -/
theorem wrec_map_other (l : List WRec) (eid : String) (g : WRec → WRec)
    (h : ∀ r ∈ l, ¬ r.stripeEventId = eid) :
    (l.map fun r => if r.stripeEventId = eid then g r else r) = l := by
  induction l with
  | nil => rfl
  | cons a as ih =>
    simp only [List.map_cons, List.cons.injEq]
    exact ⟨if_neg (h a (List.mem_cons_self a as)),
      ih fun b hb => h b (List.mem_cons_of_mem a hb)⟩

/-- No row of `l` survives the id filter when none carries the id. -/
theorem wrec_filter_other (l : List WRec) (eid : String)
    (h : ∀ r ∈ l, ¬ r.stripeEventId = eid) :
    (l.filter fun r => r.stripeEventId = eid) = [] := by
  induction l with
  | nil => rfl
  | cons a as ih =>
    rw [List.filter_cons]
    simp only [h a (List.mem_cons_self a as), decide_False, if_false]
    exact ih fun b hb => h b (List.mem_cons_of_mem a hb)

/-- A false `any` over the ledger means no row carries the id. -/
theorem wrec_any_false (l : List WRec) (eid : String)
    (h : (l.any fun r => r.stripeEventId = eid) = false) :
    ∀ r ∈ l, ¬ r.stripeEventId = eid := by
  intro r hr hc
  have : (l.any fun r => r.stripeEventId = eid) = true :=
    List.any_eq_true.mpr ⟨r, hr, by simpa using hc⟩
  simp [this] at h

/-! ### Claim theorems -/

/-- C5 counterexample: the converter does not return null on a negative
input; `convertStripeTimestamp(-1)` is the pre-epoch date `-1000` ms, so the
claim that null/undefined, non-numbers, NaN, zero *and negative* inputs are
all rejected is false on the code. -/
theorem c5_counterexample :
    convertStripeTimestamp (TsVal.tnum (-1)) = some (-1000) ∧
    convertStripeTimestamp (TsVal.tnum (-1)) ≠ none ∧ (-1000 : ℚ) < 0 := by
  have h : convertStripeTimestamp (TsVal.tnum (-1)) = some (-1000) := by
    norm_num [convertStripeTimestamp]
  exact ⟨h, by rw [h]; exact Option.some_ne_none _, by norm_num⟩

/-- C5 (amended): the timestamp converter returns null exactly on
null/undefined, NaN and zero; every other numeric input — including
negative ones — is converted to the calendar timestamp at `input * 1000`
milliseconds, so a negative input does produce a pre-epoch date rather
than being treated as absent. -/
theorem c5_timestamp_converter :
    (∀ t : TsVal, convertStripeTimestamp t = none ↔
        t = TsVal.tnull ∨ t = TsVal.tnan ∨ t = TsVal.tnum 0) ∧
    (∀ q : ℚ, q ≠ 0 →
        convertStripeTimestamp (TsVal.tnum q) = some (q * 1000)) ∧
    (∀ q : ℚ, q < 0 →
        convertStripeTimestamp (TsVal.tnum q) = some (q * 1000) ∧
        q * 1000 < 0) := by
  refine ⟨?_, ?_, ?_⟩
  · intro t
    cases t with
    | tnull => simp [convertStripeTimestamp]
    | tnan => simp [convertStripeTimestamp]
    | tnum q => by_cases h : q = 0 <;> simp [convertStripeTimestamp, h]
  · intro q h
    simp [convertStripeTimestamp, h]
  · intro q h
    exact ⟨by simp [convertStripeTimestamp, ne_of_lt h],
      mul_neg_of_neg_of_pos h (by norm_num)⟩

/-- C5 witness: concrete instances of the amended characterization. -/
theorem c5_timestamp_converter_witness :
    convertStripeTimestamp (TsVal.tnum 5) = some 5000 ∧
    convertStripeTimestamp (TsVal.tnum (-2)) = some (-2000) ∧
    (-2000 : ℚ) < 0 := by
  have h1 := c5_timestamp_converter.2.1 5 (by norm_num)
  have h2 := (c5_timestamp_converter.2.2 (-2) (by norm_num)).1
  norm_num at h1 h2
  exact ⟨h1, h2, by norm_num⟩

/-- C4 (confirmed): for subscription-created and subscription-updated
events the period start is resolved by the priority chain item-level
`current_period_start`, then `billing_cycle_anchor`, then `created`: the
first candidate the converter accepts wins, a resolution of only the
creation timestamp yields that time, no qualifying candidate yields null,
and epoch zero is never produced; the created handler stores exactly this
resolution and the update handler overwrites the field with it whenever it
is non-null. -/
theorem c4_period_start_fallback :
    (∀ s : SubscriptionEvent,
        (convertStripeTimestamp (itemPeriodStart s)).isSome = true →
        resolvePeriodStart s = convertStripeTimestamp (itemPeriodStart s)) ∧
    (∀ s : SubscriptionEvent,
        (convertStripeTimestamp (itemPeriodStart s)).isSome = false →
        (convertStripeTimestamp s.billing_cycle_anchor).isSome = true →
        resolvePeriodStart s = convertStripeTimestamp s.billing_cycle_anchor) ∧
    (∀ s : SubscriptionEvent,
        (convertStripeTimestamp (itemPeriodStart s)).isSome = false →
        (convertStripeTimestamp s.billing_cycle_anchor).isSome = false →
        resolvePeriodStart s = convertStripeTimestamp s.created) ∧
    (∀ s : SubscriptionEvent, resolvePeriodStart s ≠ some 0) ∧
    (∀ (db : DB) (s : SubscriptionEvent) (user : UserRec),
        findUserByCustomer db s.customer = some user →
        (handleSubscriptionCreated db s).subs =
          db.subs ++ [newSubRecord user s] ∧
        (newSubRecord user s).currentPeriodStart = resolvePeriodStart s) ∧
    (∀ (old : SubRec) (s : SubscriptionEvent) (v : ℚ),
        resolvePeriodStart s = some v →
        (updatedSubRecord old s).currentPeriodStart = some v) := by
  refine ⟨?_, ?_, ?_, ?_, ?_, ?_⟩
  · intro s h
    simp [resolvePeriodStart, tsTruthy_eq_isSome, h]
  · intro s h1 h2
    simp [resolvePeriodStart, tsTruthy_eq_isSome, h1, h2]
  · intro s h1 h2
    simp [resolvePeriodStart, tsTruthy_eq_isSome, h1, h2]
  · intro s
    unfold resolvePeriodStart
    split
    · exact convertStripeTimestamp_ne_zero _
    · split
      · exact convertStripeTimestamp_ne_zero _
      · exact convertStripeTimestamp_ne_zero _
  · intro db s user h
    exact ⟨by simp [handleSubscriptionCreated, h], rfl⟩
  · intro old s v h
    simp [updatedSubRecord, h]

/-- C4 witness: concrete subscriptions exercising each arm of the fallback
chain, the created-handler insertion and the update-handler overwrite. -/
theorem c4_period_start_fallback_witness :
    resolvePeriodStart sItemEvt = some 100000 ∧
    resolvePeriodStart sAnchorEvt = some 200000 ∧
    resolvePeriodStart sCreatedEvt = some 1700000000000 ∧
    resolvePeriodStart sNoneEvt = none ∧
    (handleSubscriptionCreated dbFresh sCreatedEvt).subs =
      dbFresh.subs ++ [newSubRecord exUser sCreatedEvt] ∧
    (updatedSubRecord exSub sCreatedEvt).currentPeriodStart =
      some 1700000000000 := by
  have h1 := c4_period_start_fallback.1 sItemEvt
    (by norm_num [sItemEvt, subEvt, itemPeriodStart, convertStripeTimestamp])
  have h2 := (c4_period_start_fallback.2.1) sAnchorEvt
    (by norm_num [sAnchorEvt, subEvt, itemPeriodStart, convertStripeTimestamp])
    (by norm_num [sAnchorEvt, subEvt, convertStripeTimestamp])
  have h3 := (c4_period_start_fallback.2.2.1) sCreatedEvt
    (by norm_num [sCreatedEvt, subEvt, itemPeriodStart, convertStripeTimestamp])
    (by norm_num [sCreatedEvt, subEvt, convertStripeTimestamp])
  have hres : resolvePeriodStart sCreatedEvt = some 1700000000000 := by
    rw [h3]; norm_num [sCreatedEvt, subEvt, convertStripeTimestamp]
  have h5 := (c4_period_start_fallback.2.2.2.2.1) dbFresh sCreatedEvt exUser
    (by decide)
  have h6 := (c4_period_start_fallback.2.2.2.2.2) exSub sCreatedEvt
    1700000000000 hres
  refine ⟨?_, ?_, hres, by decide, h5.1, h6⟩
  · rw [h1]; norm_num [sItemEvt, subEvt, itemPeriodStart, convertStripeTimestamp]
  · rw [h2]; norm_num [sAnchorEvt, subEvt, convertStripeTimestamp]

/-- C10 (confirmed): a payment-intent-succeeded event whose payment intent
carries an invoice reference leaves the store entirely unchanged — no
transaction is recorded even when the customer correlates to a local user,
deliberately leaving the recording to the invoice-payment-succeeded
handler. -/
theorem c10_subscription_charge_skipped :
    ∀ (db : DB) (pi : PaymentIntent) (settlement : Option (Option BalanceTx))
      (now : ℚ),
      optStrTruthy (pi.invoice) = true →
      handlePaymentIntentSucceeded db pi settlement now = db := by
  intro db pi settlement now h
  unfold handlePaymentIntentSucceeded
  cases hc : pi.customer with
  | none => rfl
  | some cid =>
    cases hu : findUserByCustomer db cid with
    | none => simp [hu]
    | some user => simp [hu, h]

/-- C10 witness: a concrete subscription payment intent with a found user
is a no-op. -/
theorem c10_subscription_charge_skipped_witness :
    handlePaymentIntentSucceeded dbFresh payIntInv
      (some (some exSettlement)) 3 = dbFresh :=
  c10_subscription_charge_skipped dbFresh payIntInv
    (some (some exSettlement)) 3 (by decide)

/-- C6 (confirmed): an update on a stored subscription resets
`failedPaymentCount` to zero exactly when the previous local status was
PAST_DUE and the newly mapped status is ACTIVE; every other update
transition leaves the counter unchanged. -/
theorem c6_recovery_reset :
    ∀ (db : DB) (s : SubscriptionEvent) (old : SubRec),
      findSubById (db.subs) s.id = some old →
      findSubById ((handleSubscriptionUpdated db s).subs) s.id =
        some (updatedSubRecord old s) ∧
      ((old.status = SubStatus.past_due ∧
          mapStripeSubscriptionStatus s.status = SubStatus.active) →
        (updatedSubRecord old s).failedPaymentCount = 0) ∧
      (¬ (old.status = SubStatus.past_due ∧
          mapStripeSubscriptionStatus s.status = SubStatus.active) →
        (updatedSubRecord old s).failedPaymentCount =
          old.failedPaymentCount) := by
  intro db s old h
  refine ⟨?_, ?_, ?_⟩
  · have hid : (updatedSubRecord old s).stripeSubscriptionId = s.id := by
      have hp := List.find?_some h
      simpa [updatedSubRecord] using hp
    simp only [handleSubscriptionUpdated, h]
    exact findSubById_saveSubById _ _ _ _ hid h
  · intro hc
    simp [updatedSubRecord, hc.1, hc.2]
  · intro hc
    have hrev : ¬ (mapStripeSubscriptionStatus s.status = SubStatus.active ∧
        old.status = SubStatus.past_due) := fun hand => hc ⟨hand.2, hand.1⟩
    simp [updatedSubRecord, hrev]

/-- C6 witness: the spec's example — PAST_DUE with two failures receives an
ACTIVE-mapping update and ends with a zero counter. -/
theorem c6_recovery_reset_witness :
    findSubById ((handleSubscriptionUpdated dbPD
        (subEvt "sub_1" "active")).subs) "sub_1" =
      some (updatedSubRecord subPD (subEvt "sub_1" "active")) ∧
    (updatedSubRecord subPD (subEvt "sub_1" "active")).failedPaymentCount
      = 0 ∧
    subPD.failedPaymentCount = 2 := by
  have h := c6_recovery_reset dbPD (subEvt "sub_1" "active") subPD (by decide)
  exact ⟨h.1, h.2.1 (by decide), by decide⟩

/-- C8 counterexample: a subscription-deleted event does force `sub_1` to
CANCELED, but a later subscription-updated event carrying status `active`
moves it back to ACTIVE — the claim that no subsequent update ever moves
the status away from CANCELED is false on the code. -/
theorem c8_counterexample :
    (findSubById ((handleSubscriptionDeleted dbFresh
          (subEvt "sub_1" "canceled") 77).subs) "sub_1").map
        (fun r => r.status) = some SubStatus.canceled ∧
    (findSubById ((handleSubscriptionUpdated
          (handleSubscriptionDeleted dbFresh (subEvt "sub_1" "canceled") 77)
          (subEvt "sub_1" "active")).subs) "sub_1").map
        (fun r => r.status) = some SubStatus.active ∧
    SubStatus.active ≠ SubStatus.canceled := by decide

/-- C8 (amended): after a subscription-deleted event for a stored
subscription the status is CANCELED and both `canceledAt` and `endedAt`
are set to the processing time; however, a subsequent update event for the
same id overwrites the status with the event's mapped status unguarded, so
a late update can move the subscription away from CANCELED. -/
theorem c8_deletion_and_late_update :
    (∀ (db : DB) (s : SubscriptionEvent) (now : ℚ) (old : SubRec),
        findSubById (db.subs) s.id = some old →
        findSubById ((handleSubscriptionDeleted db s now).subs) s.id =
          some { old with
            status := SubStatus.canceled
            canceledAt := some now
            endedAt := some now }) ∧
    (∀ (old : SubRec) (s : SubscriptionEvent),
        (updatedSubRecord old s).status =
          mapStripeSubscriptionStatus s.status) := by
  refine ⟨?_, fun old s => rfl⟩
  intro db s now old h
  have hid : ({ old with
      status := SubStatus.canceled
      canceledAt := some now
      endedAt := some now } : SubRec).stripeSubscriptionId = s.id := by
    have hp := List.find?_some h
    simpa using hp
  simp only [handleSubscriptionDeleted, h]
  exact findSubById_saveSubById _ _ _ _ hid h

/-- C8 witness: deleting the stored `sub_1` at time 77 yields the CANCELED
record with both timestamps set, and an `active` update maps to ACTIVE. -/
theorem c8_deletion_and_late_update_witness :
    findSubById ((handleSubscriptionDeleted dbFresh
        (subEvt "sub_1" "canceled") 77).subs) "sub_1" =
      some { exSub with
        status := SubStatus.canceled
        canceledAt := some 77
        endedAt := some 77 } ∧
    (updatedSubRecord { exSub with status := SubStatus.canceled }
        (subEvt "sub_1" "active")).status = SubStatus.active := by
  have h1 := c8_deletion_and_late_update.1 dbFresh
    (subEvt "sub_1" "canceled") 77 exSub (by decide)
  have h2 := c8_deletion_and_late_update.2
    { exSub with status := SubStatus.canceled } (subEvt "sub_1" "active")
  exact ⟨h1, by rw [h2]; decide⟩

/-- C7 counterexample: an invoice-payment-failed event whose invoice
references the stored subscription `sub_1` but whose customer has no local
user performs no mutation at all — the counter is not incremented, so the
claim as stated (quantified only over the stored-subscription reference)
is false on the code. -/
theorem c7_counterexample :
    handleInvoicePaymentFailed dbNoUser invOrphan none = dbNoUser ∧
    (findSubById (dbNoUser.subs) "sub_1").map
        (fun r => r.failedPaymentCount) = some 0 ∧
    (invOrphan.subscription) = some "sub_1" := by
  refine ⟨?_, by decide, by decide⟩
  simp [handleInvoicePaymentFailed, invOrphan, dbNoUser, dbFresh,
    findUserByCustomer]

/-- C7 (amended): when the invoice's customer correlates to a local user
and the invoice references a stored subscription, `failedPaymentCount` is
incremented by exactly one and the status is forced to PAST_DUE exactly
when the resulting count is 1; later failures keep incrementing without
touching the status.  (Without the user correlation the handler performs no
mutation, which is what refutes the original claim.) -/
theorem c7_failed_payment_increment :
    ∀ (db : DB) (inv : Invoice) (fr : Option String) (cid : String)
      (user : UserRec) (sid : String) (sub : SubRec),
      inv.customer = some cid →
      findUserByCustomer db cid = some user →
      inv.subscription = some sid →
      findSubById (db.subs) sid = some sub →
      findSubById ((handleInvoicePaymentFailed db inv fr).subs) sid =
        some { sub with
          failedPaymentCount := sub.failedPaymentCount + 1
          status := if sub.failedPaymentCount + 1 = 1 then SubStatus.past_due
            else sub.status } ∧
      (sub.failedPaymentCount = 0 →
        findSubById ((handleInvoicePaymentFailed db inv fr).subs) sid =
          some { sub with
            failedPaymentCount := 1
            status := SubStatus.past_due }) ∧
      (sub.failedPaymentCount ≠ 0 →
        findSubById ((handleInvoicePaymentFailed db inv fr).subs) sid =
          some { sub with
            failedPaymentCount := sub.failedPaymentCount + 1 }) := by
  intro db inv fr cid user sid sub hcust hu hsub hfind
  have hid : ({ sub with
      failedPaymentCount := sub.failedPaymentCount + 1
      status := if sub.failedPaymentCount + 1 = 1 then SubStatus.past_due
        else sub.status } : SubRec).stripeSubscriptionId = sid := by
    have hp := List.find?_some hfind
    simpa using hp
  have hsubs : (handleInvoicePaymentFailed db inv fr).subs =
      saveSubById (db.subs) sid
        { sub with
          failedPaymentCount := sub.failedPaymentCount + 1
          status := if sub.failedPaymentCount + 1 = 1 then SubStatus.past_due
            else sub.status } := by
    simp only [handleInvoicePaymentFailed, hcust, hu, hsub, hfind,
      recordTransaction]
  have hmain :
      findSubById ((handleInvoicePaymentFailed db inv fr).subs) sid =
        some { sub with
          failedPaymentCount := sub.failedPaymentCount + 1
          status := if sub.failedPaymentCount + 1 = 1 then SubStatus.past_due
            else sub.status } := by
    rw [hsubs]
    exact findSubById_saveSubById _ _ _ _ hid hfind
  refine ⟨hmain, ?_, ?_⟩
  · intro h0
    rw [hmain]
    simp [h0]
  · intro h0
    have hne : ¬ (sub.failedPaymentCount + 1 = 1) := by omega
    rw [hmain]
    simp [hne]

/-- C7 witness: the stored ACTIVE `sub_1` with zero failures receives its
first failed invoice and ends at count 1, PAST_DUE. -/
theorem c7_failed_payment_increment_witness :
    findSubById ((handleInvoicePaymentFailed dbFresh invFail5000 none).subs)
        "sub_1" =
      some { exSub with
        failedPaymentCount := 1
        status := SubStatus.past_due } := by
  have h := c7_failed_payment_increment dbFresh invFail5000 none "cus_1"
    exUser "sub_1" exSub (by decide) (by decide) (by decide) (by decide)
  exact h.2.1 (by decide)

/-- C9 (confirmed): for recorded invoice-payment-succeeded transactions and
for recorded non-subscription payment-intent-succeeded transactions, the
fee defaults to zero and the net amount to the gross amount whenever the
expanded settlement object is unavailable (no payment-intent reference, a
failed lookup, or an unexpanded charge), and both are taken from the
settlement object, divided by 100, when it is available. -/
theorem c9_fee_net_fallback :
    (∀ (db : DB) (inv : Invoice) (now : ℚ) (cid : String) (user : UserRec)
        (settlement : Option (Option BalanceTx)),
        inv.customer = some cid →
        findUserByCustomer db cid = some user →
        (inv.payment_intent = none ∨ settlement = none ∨
          settlement = some none) →
        ∃ tx : TxRec,
          (handleInvoicePaymentSucceeded db inv settlement now).txs =
            db.txs ++ [tx] ∧
          tx.stripeFee = some 0 ∧
          tx.netAmount = some (((inv.amount_paid).getD 0) / 100) ∧
          tx.amount = ((inv.amount_paid).getD 0) / 100) ∧
    (∀ (db : DB) (inv : Invoice) (now : ℚ) (cid p : String)
        (user : UserRec) (bt : BalanceTx),
        inv.customer = some cid →
        findUserByCustomer db cid = some user →
        inv.payment_intent = some p →
        ∃ tx : TxRec,
          (handleInvoicePaymentSucceeded db inv (some (some bt)) now).txs =
            db.txs ++ [tx] ∧
          tx.stripeFee = some (bt.fee / 100) ∧
          tx.netAmount = some (bt.net / 100)) ∧
    (∀ (db : DB) (pi : PaymentIntent) (now : ℚ) (cid : String)
        (user : UserRec) (settlement : Option (Option BalanceTx)),
        pi.customer = some cid →
        findUserByCustomer db cid = some user →
        optStrTruthy (pi.invoice) = false →
        (settlement = none ∨ settlement = some none) →
        ∃ tx : TxRec,
          (handlePaymentIntentSucceeded db pi settlement now).txs =
            db.txs ++ [tx] ∧
          tx.stripeFee = some 0 ∧
          tx.netAmount = some (pi.amount / 100) ∧
          tx.amount = pi.amount / 100) ∧
    (∀ (db : DB) (pi : PaymentIntent) (now : ℚ) (cid : String)
        (user : UserRec) (bt : BalanceTx),
        pi.customer = some cid →
        findUserByCustomer db cid = some user →
        optStrTruthy (pi.invoice) = false →
        ∃ tx : TxRec,
          (handlePaymentIntentSucceeded db pi (some (some bt)) now).txs =
            db.txs ++ [tx] ∧
          tx.stripeFee = some (bt.fee / 100) ∧
          tx.netAmount = some (bt.net / 100)) := by
  refine ⟨?_, ?_, ?_, ?_⟩
  · intro db inv now cid user settlement hc hu hcase
    rcases hcase with hpi | hs | hs
    · simp only [handleInvoicePaymentSucceeded, hc, hu, hpi,
        recordTransaction]
      exact ⟨_, rfl, rfl, rfl, rfl⟩
    · subst hs
      cases hpi : inv.payment_intent with
      | none =>
        simp only [handleInvoicePaymentSucceeded, hc, hu, hpi,
          recordTransaction]
        exact ⟨_, rfl, rfl, rfl, rfl⟩
      | some p =>
        simp only [handleInvoicePaymentSucceeded, hc, hu, hpi,
          recordTransaction]
        exact ⟨_, rfl, rfl, rfl, rfl⟩
    · subst hs
      cases hpi : inv.payment_intent with
      | none =>
        simp only [handleInvoicePaymentSucceeded, hc, hu, hpi,
          recordTransaction]
        exact ⟨_, rfl, rfl, rfl, rfl⟩
      | some p =>
        simp only [handleInvoicePaymentSucceeded, hc, hu, hpi,
          recordTransaction]
        exact ⟨_, rfl, rfl, rfl, rfl⟩
  · intro db inv now cid p user bt hc hu hpi
    simp only [handleInvoicePaymentSucceeded, hc, hu, hpi,
      recordTransaction]
    exact ⟨_, rfl, rfl, rfl⟩
  · intro db pi now cid user settlement hc hu hinv hcase
    rcases hcase with hs | hs <;>
    · subst hs
      simp only [handlePaymentIntentSucceeded, hc, hu, hinv,
        Bool.false_eq_true, if_false, recordTransaction]
      exact ⟨_, rfl, rfl, rfl, rfl⟩
  · intro db pi now cid user bt hc hu hinv
    simp only [handlePaymentIntentSucceeded, hc, hu, hinv,
      Bool.false_eq_true, if_false, recordTransaction]
    exact ⟨_, rfl, rfl, rfl⟩

/-- C9 witness: concrete invoices and payment intents with and without the
expanded settlement object. -/
theorem c9_fee_net_fallback_witness :
    (∃ tx : TxRec,
      (handleInvoicePaymentSucceeded dbFresh invPaid none 3).txs =
        dbFresh.txs ++ [tx] ∧
      tx.stripeFee = some 0 ∧
      tx.netAmount = some (((invPaid.amount_paid).getD 0) / 100) ∧
      tx.amount = ((invPaid.amount_paid).getD 0) / 100) ∧
    (∃ tx : TxRec,
      (handleInvoicePaymentSucceeded dbFresh invPaid
          (some (some exSettlement)) 3).txs = dbFresh.txs ++ [tx] ∧
      tx.stripeFee = some (exSettlement.fee / 100) ∧
      tx.netAmount = some (exSettlement.net / 100)) ∧
    (∃ tx : TxRec,
      (handlePaymentIntentSucceeded dbFresh payIntPlain none 3).txs =
        dbFresh.txs ++ [tx] ∧
      tx.stripeFee = some 0 ∧
      tx.netAmount = some (payIntPlain.amount / 100) ∧
      tx.amount = payIntPlain.amount / 100) ∧
    (∃ tx : TxRec,
      (handlePaymentIntentSucceeded dbFresh payIntPlain
          (some (some exSettlement)) 3).txs = dbFresh.txs ++ [tx] ∧
      tx.stripeFee = some (exSettlement.fee / 100) ∧
      tx.netAmount = some (exSettlement.net / 100)) := by
  refine ⟨?_, ?_, ?_, ?_⟩
  · exact c9_fee_net_fallback.1 dbFresh invPaid 3 "cus_1" exUser none
      (by decide) (by decide) (Or.inr (Or.inl rfl))
  · exact c9_fee_net_fallback.2.1 dbFresh invPaid 3 "cus_1" "pi_3" exUser
      exSettlement (by decide) (by decide) (by decide)
  · exact c9_fee_net_fallback.2.2.1 dbFresh payIntPlain 3 "cus_1" exUser
      none (by decide) (by decide) (by decide) (Or.inl rfl)
  · exact c9_fee_net_fallback.2.2.2 dbFresh payIntPlain 3 "cus_1" exUser
      exSettlement (by decide) (by decide) (by decide)

/-- C3 counterexample: the checkout-session handler passes
`session.amount_total` to the transaction recorder without dividing by 100
— a completed session over 5000 minor units is stored with amount 5000,
not 50, so the claim that *every* handler invocation converts to major
units beforehand is false on the code. -/
theorem c3_counterexample :
    (handleCheckoutSessionCompleted dbFresh sessEx).txs.map
        (fun t => t.amount) = [5000] ∧
    (sessEx.amount_total) = some 5000 ∧ (5000 : ℚ) ≠ 50 := by
  refine ⟨by decide, by decide, by norm_num⟩

/-- C3 (amended): the transaction recorder itself never divides by 100 and
upper-cases the stored currency; the invoice and payment-intent handlers
divide minor units by 100 before calling it, but the checkout-session
handler passes `amount_total` unconverted; the end-to-end
invoice-payment-failed example (5000 minor units, `usd`, first failure of
`sub_1`) stores amount 50, currency `USD`, status FAILED and leaves the
subscription at count 1, PAST_DUE. -/
theorem c3_amount_conversion :
    (∀ (db : DB) (uid : String) (pid : Option String) (ty : TxType)
        (a : ℚ) (c : String) (st : TxStatus) (d fr : Option String)
        (fee net pa : Option ℚ),
        (recordTransaction db uid pid ty a c st d fr fee net pa).txs =
          db.txs ++ [mkTransaction uid pid ty a c st d fr fee net pa] ∧
        (mkTransaction uid pid ty a c st d fr fee net pa).amount = a ∧
        (mkTransaction uid pid ty a c st d fr fee net pa).currency =
          strToUpper c) ∧
    (∀ (db : DB) (sess : CheckoutSession) (cid : String) (user : UserRec),
        sess.customer = some cid →
        findUserByCustomer db cid = some user →
        ∃ tx : TxRec,
          (handleCheckoutSessionCompleted db sess).txs = db.txs ++ [tx] ∧
          tx.amount = (sess.amount_total).getD 0) ∧
    (∀ (db : DB) (inv : Invoice) (fr : Option String) (cid : String)
        (user : UserRec),
        inv.customer = some cid →
        findUserByCustomer db cid = some user →
        ∃ tx : TxRec,
          (handleInvoicePaymentFailed db inv fr).txs = db.txs ++ [tx] ∧
          tx.amount = inv.amount_due / 100 ∧
          tx.currency = strToUpper (inv.currency) ∧
          tx.status = TxStatus.failed) ∧
    ((handleInvoicePaymentFailed dbFresh invFail5000 none).txs.map
        (fun t => (t.amount, t.currency, t.status)) =
      [((50 : ℚ), "USD", TxStatus.failed)] ∧
      (findSubById ((handleInvoicePaymentFailed dbFresh invFail5000
          none).subs) "sub_1").map
        (fun r => (r.failedPaymentCount, r.status)) =
          some (1, SubStatus.past_due)) := by
  refine ⟨?_, ?_, ?_, ?_, ?_⟩
  · intro db uid pid ty a c st d fr fee net pa
    exact ⟨rfl, rfl, rfl⟩
  · intro db sess cid user hc hu
    simp only [handleCheckoutSessionCompleted, hc, hu, recordTransaction]
    exact ⟨_, rfl, rfl⟩
  · intro db inv fr cid user hc hu
    cases hs : inv.subscription with
    | none =>
      simp only [handleInvoicePaymentFailed, hc, hu, hs, recordTransaction]
      exact ⟨_, rfl, rfl, rfl, rfl⟩
    | some sid =>
      cases hf : findSubById (db.subs) sid with
      | none =>
        simp only [handleInvoicePaymentFailed, hc, hu, hs, hf,
          recordTransaction]
        exact ⟨_, rfl, rfl, rfl, rfl⟩
      | some sub =>
        simp only [handleInvoicePaymentFailed, hc, hu, hs, hf,
          recordTransaction]
        exact ⟨_, rfl, rfl, rfl, rfl⟩
  · have e : (handleInvoicePaymentFailed dbFresh invFail5000 none).txs.map
        (fun t => (t.amount, t.currency, t.status)) =
        [(((5000 : ℚ) / 100), "USD", TxStatus.failed)] := rfl
    rw [e]
    norm_num
  · decide

/-- C3 witness: concrete instances — a recorder call stores its amount
unchanged, the checkout handler passes minor units through, and the failed
invoice yields the divided amount. -/
theorem c3_amount_conversion_witness :
    (recordTransaction dbFresh "u1" (some "pi_7") TxType.payment 5000 "usd"
        TxStatus.completed none none none none none).txs =
      dbFresh.txs ++ [mkTransaction "u1" (some "pi_7") TxType.payment 5000
        "usd" TxStatus.completed none none none none none] ∧
    (mkTransaction "u1" (some "pi_7") TxType.payment 5000 "usd"
        TxStatus.completed none none none none none).amount = 5000 ∧
    (∃ tx : TxRec,
      (handleCheckoutSessionCompleted dbFresh sessEx).txs =
        dbFresh.txs ++ [tx] ∧ tx.amount = (sessEx.amount_total).getD 0) ∧
    (∃ tx : TxRec,
      (handleInvoicePaymentFailed dbFresh invFail5000 none).txs =
        dbFresh.txs ++ [tx] ∧
      tx.amount = invFail5000.amount_due / 100 ∧
      tx.currency = strToUpper (invFail5000.currency) ∧
      tx.status = TxStatus.failed) := by
  have h1 := c3_amount_conversion.1 dbFresh "u1" (some "pi_7")
    TxType.payment 5000 "usd" TxStatus.completed none none none none none
  have h2 := c3_amount_conversion.2.1 dbFresh sessEx "cus_1" exUser
    (by decide) (by decide)
  have h3 := c3_amount_conversion.2.2.1 dbFresh invFail5000 none "cus_1"
    exUser (by decide) (by decide)
  exact ⟨h1.1, h1.2.1, h2, h3⟩

/-- The catch block leaves the store untouched and re-throws when the error
message does not contain `event.id`. -/
theorem webhookCatch_no_id (cfg : WConfig) (db : DB) (msg : String)
    (now : ℚ)
    (h : charsContain ("event.id".toList) (msg.toList) = false) :
    webhookCatch cfg db msg now = (db, some msg) := by
  unfold webhookCatch
  rw [h]
  simp

/-- The catch block marks the parsed id FAILED and re-throws when logging
is on and the message carries a parsable `event.id: <id>`. -/
theorem webhookCatch_with_id (cfg : WConfig) (db : DB) (msg : String)
    (now : ℚ) (eid : String)
    (hcfg : cfg.loggingEnabled = true)
    (h : charsContain ("event.id".toList) (msg.toList) = true)
    (hp : findEventIdInMsg (msg.toList) = some eid) :
    webhookCatch cfg db msg now =
      (updateWebhookEventStatus cfg db eid WStatus.failed (some msg) now,
        some msg) := by
  unfold webhookCatch
  rw [hcfg, h, hp]
  rfl

/-- C1 counterexample: with the ledger enabled and a COMPLETED row already
stored for `evt_1`, re-processing `evt_1` does not return success — the
unconditional PENDING insert fails on the unique event id and the call
returns an error (leaving the store unchanged), so the claimed
success-no-op duplicate suppression is false on the code. -/
theorem c1_counterexample :
    (handleWebhookEvent wcfgOn oracleQuiet dbDup evtDup 7).2 =
      some duplicateEventMessage ∧
    (handleWebhookEvent wcfgOn oracleQuiet dbDup evtDup 7).2 ≠ none ∧
    (handleWebhookEvent wcfgOn oracleQuiet dbDup evtDup 7).1 = dbDup ∧
    wrowCompleted.processingStatus = WStatus.completed ∧
    wrowCompleted.stripeEventId = evtDup.id := by decide

/-- C1 (amended): with ledger logging enabled, processing an event whose id
already has a ledger row — COMPLETED or otherwise — never reaches any
handler: the unconditional PENDING insert violates the unique event id,
the call propagates the error and the store is left unchanged.  No
COMPLETED-row check exists, so a duplicate delivery is an error, not a
success no-op. -/
theorem c1_duplicate_event_processing :
    ∀ (o : Oracle) (db : DB) (evt : WebhookEvent) (now : ℚ),
      (db.webhookEvents.any fun r => r.stripeEventId = evt.id) = true →
      handleWebhookEvent wcfgOn o db evt now =
        (db, some duplicateEventMessage) := by
  intro o db evt now h
  have hlog : logWebhookEvent wcfgOn db evt.id (eventTypeName evt.data) =
      Except.error duplicateEventMessage := by
    simp [logWebhookEvent, wcfgOn, h]
  have hcatch := webhookCatch_no_id wcfgOn db duplicateEventMessage now
    (by decide)
  simp [handleWebhookEvent, hlog, hcatch]

/-- C1 witness: the concrete duplicate delivery of `evt_1`. -/
theorem c1_duplicate_event_processing_witness :
    handleWebhookEvent wcfgOn oracleQuiet dbDup evtDup 7 =
      (dbDup, some duplicateEventMessage) :=
  c1_duplicate_event_processing oracleQuiet dbDup evtDup 7 (by decide)

/-- C2 counterexample: a fresh event whose handler throws `boom` leaves its
ledger row PENDING with `retryCount = 0` and no `errorMessage` — the catch
block only finds the row when the error message embeds `event.id: <id>`,
so the claimed FAILED/RETRYING marking does not happen, although the error
is propagated. -/
theorem c2_counterexample :
    (handleWebhookEvent wcfgOn oracleBoom dbFresh evtBoom 9).2 =
      some "boom" ∧
    (handleWebhookEvent wcfgOn oracleBoom dbFresh
        evtBoom 9).1.webhookEvents.map
        (fun r => (r.stripeEventId, r.processingStatus, r.retryCount,
          r.errorMessage)) =
      [("evt_7", WStatus.pending, 0, (none : Option String))] ∧
    WStatus.pending ≠ WStatus.failed ∧
    WStatus.pending ≠ WStatus.retrying := by decide

/-- C2 (amended): when the handler of a freshly logged event throws, the
error is always propagated to the caller, but the ledger row is marked
FAILED (with the error message and an incremented retry count) only when
the thrown message contains `event.id` and the id parsed from it is the
event's id; otherwise — the typical case — the row remains PENDING with
`retryCount = 0` and no error message. -/
theorem c2_failure_marking :
    ∀ (o : Oracle) (db : DB) (evt : WebhookEvent) (now : ℚ) (msg : String),
      o.handlerFault = some msg →
      (db.webhookEvents.any fun r => r.stripeEventId = evt.id) = false →
      (handleWebhookEvent wcfgOn o db evt now).2 = some msg ∧
      (charsContain ("event.id".toList) (msg.toList) = false →
        ledgerRows (handleWebhookEvent wcfgOn o db evt now).1 evt.id =
          [freshLedgerRow evt]) ∧
      (charsContain ("event.id".toList) (msg.toList) = true →
        findEventIdInMsg (msg.toList) = some evt.id →
        ledgerRows (handleWebhookEvent wcfgOn o db evt now).1 evt.id =
          [{ freshLedgerRow evt with
             processingStatus := WStatus.failed
             retryCount := 1
             errorMessage := some msg }]) := by
  intro o db evt now msg hf hno
  have hother := wrec_any_false _ _ hno
  have hlog : logWebhookEvent wcfgOn db evt.id (eventTypeName evt.data) =
      Except.ok (some (freshLedgerRow evt),
        { db with webhookEvents :=
            db.webhookEvents ++ [freshLedgerRow evt] }) := by
    simp [logWebhookEvent, wcfgOn, hno, freshLedgerRow]
  have hpend : updateWebhookEventStatus wcfgOn
      { db with webhookEvents := db.webhookEvents ++ [freshLedgerRow evt] }
      evt.id WStatus.pending none now =
      { db with webhookEvents :=
          db.webhookEvents ++ [freshLedgerRow evt] } := by
    simp [updateWebhookEventStatus, wcfgOn, List.map_append,
      wrec_map_other _ _ _ hother, applyWStatus, freshLedgerRow]
  have hrun : handleWebhookEvent wcfgOn o db evt now =
      webhookCatch wcfgOn
        { db with webhookEvents := db.webhookEvents ++ [freshLedgerRow evt] }
        msg now := by
    simp [handleWebhookEvent, hlog, hpend, hf]
  have hrowsIns : ledgerRows
      { db with webhookEvents := db.webhookEvents ++ [freshLedgerRow evt] }
      evt.id = [freshLedgerRow evt] := by
    simp [ledgerRows, List.filter_append, wrec_filter_other _ _ hother,
      freshLedgerRow]
  refine ⟨?_, ?_, ?_⟩
  · rw [hrun]
    unfold webhookCatch
    rfl
  · intro hcont
    rw [hrun, webhookCatch_no_id _ _ _ _ hcont]
    exact hrowsIns
  · intro hcont hpar
    have hfail : updateWebhookEventStatus wcfgOn
        { db with webhookEvents :=
            db.webhookEvents ++ [freshLedgerRow evt] }
        evt.id WStatus.failed (some msg) now =
        { db with webhookEvents := db.webhookEvents ++
            [{ freshLedgerRow evt with
               processingStatus := WStatus.failed
               retryCount := 1
               errorMessage := some msg }] } := by
      simp [updateWebhookEventStatus, wcfgOn, List.map_append,
        wrec_map_other _ _ _ hother, applyWStatus, freshLedgerRow]
    have hrowsFail : ledgerRows
        { db with webhookEvents := db.webhookEvents ++
            [{ freshLedgerRow evt with
               processingStatus := WStatus.failed
               retryCount := 1
               errorMessage := some msg }] } evt.id =
        [{ freshLedgerRow evt with
           processingStatus := WStatus.failed
           retryCount := 1
           errorMessage := some msg }] := by
      simp [ledgerRows, List.filter_append, wrec_filter_other _ _ hother,
        freshLedgerRow]
    rw [hrun, webhookCatch_with_id wcfgOn _ _ _ _ rfl hcont hpar, hfail]
    exact hrowsFail

/-- C2 witness: the `boom` fault leaves a PENDING row and propagates; the
tagged fault `fail event.id: evt_7` is the one shape the catch block can
recover, marking the row FAILED with a retry. -/
theorem c2_failure_marking_witness :
    (handleWebhookEvent wcfgOn oracleBoom dbFresh evtBoom 9).2 =
      some "boom" ∧
    ledgerRows (handleWebhookEvent wcfgOn oracleBoom dbFresh evtBoom 9).1
        "evt_7" = [freshLedgerRow evtBoom] ∧
    ledgerRows (handleWebhookEvent wcfgOn oracleBoomTagged dbFresh
        evtBoom 9).1 "evt_7" =
      [{ freshLedgerRow evtBoom with
         processingStatus := WStatus.failed
         retryCount := 1
         errorMessage := some "fail event.id: evt_7" }] := by
  have h1 := c2_failure_marking oracleBoom dbFresh evtBoom 9 "boom"
    (by decide) (by decide)
  have h2 := c2_failure_marking oracleBoomTagged dbFresh evtBoom 9
    "fail event.id: evt_7" (by decide) (by decide)
  exact ⟨h1.1, h1.2.1 (by decide), h2.2.2 (by decide) (by decide)⟩
